import Mathlib

/-!
# Verification of the logs-dashboard filtered-query / live-streaming frontend

Shallow embedding of the TypeScript sources of the `logs-dashboard`
repository (frontend `types.ts`, `services/api.ts`, `hooks/useSSE.ts`,
`pages/LogListPage.tsx`, `pages/DashboardPage.tsx`) together with models of
backend behaviour that the repository snapshot does not include (the stream
session manager and the FilterSpec compiler), written from the design
document.  Each claim of the specification is settled by one theorem below.
-/

namespace LogsDashboard

/-! ## Data model (frontend `types.ts`) -/

/-- `export enum Severity` from `types.ts`: the five labels in declaration
order DEBUG, INFO, WARNING, ERROR, CRITICAL. -/
inductive Severity where
  | DEBUG
  | INFO
  | WARNING
  | ERROR
  | CRITICAL
deriving DecidableEq, Repr

/-- The string value carried by each `Severity` enum member (TS string enum:
member value equals the label). -/
def severityLabel : Severity → String
  | .DEBUG => "DEBUG"
  | .INFO => "INFO"
  | .WARNING => "WARNING"
  | .ERROR => "ERROR"
  | .CRITICAL => "CRITICAL"

/-- `Object.values(Severity)`: for a TS string enum this is the members in
declaration order. -/
def severityValues : List Severity :=
  [.DEBUG, .INFO, .WARNING, .ERROR, .CRITICAL]

/-- Index of a severity in declaration order (the canonical ranking
DEBUG < INFO < WARNING < ERROR < CRITICAL). -/
def severityRank : Severity → Nat
  | .DEBUG => 0
  | .INFO => 1
  | .WARNING => 2
  | .ERROR => 3
  | .CRITICAL => 4

/-- `interface DistributionItem` from `types.ts`. -/
structure DistributionItem where
  label : String
  count : Nat
deriving DecidableEq, Repr

/-- Canonical rank of severity labels as strings, used by the distribution
display ordering; labels outside the closed set rank last. -/
def severityRankOfLabel (l : String) : Nat :=
  if l = "DEBUG" then 0
  else if l = "INFO" then 1
  else if l = "WARNING" then 2
  else if l = "ERROR" then 3
  else if l = "CRITICAL" then 4
  else 5

/-- Ordering of distribution items by canonical severity rank of their
label. -/
def distLe (a b : DistributionItem) : Prop :=
  severityRankOfLabel a.label ≤ severityRankOfLabel b.label

instance : DecidableRel distLe := fun a b =>
  inferInstanceAs (Decidable (severityRankOfLabel a.label ≤ severityRankOfLabel b.label))

instance : IsTotal DistributionItem distLe :=
  ⟨fun a b => Nat.le_total (severityRankOfLabel a.label) (severityRankOfLabel b.label)⟩

instance : IsTrans DistributionItem distLe :=
  ⟨fun _ _ _ hab hbc => Nat.le_trans hab hbc⟩

/-- Modelled from the spec: `sortBySeverity`, imported by
`pages/DashboardPage.tsx` from `constants/styles` but whose definition is not
part of the repository snapshot, orders the distribution view's
(label, count) pairs by the canonical severity ranking
DEBUG < INFO < WARNING < ERROR < CRITICAL. -/
def sortBySeverity (items : List DistributionItem) : List DistributionItem :=
  List.insertionSort distLe items

/-! ## SSE hook message handling (`hooks/useSSE.ts`, `onmessage`) -/

/-- The `eventSource.onmessage` handler of `useSSE`: parse the raw event
payload; on success replace the stored data with the parsed value (and hand
it to the `onMessage` callback); on a parse failure leave the stored data
unchanged.  `parse` abstracts `JSON.parse` (a deterministic function that
may fail). -/
def handleMessage {J : Type} (parse : String → Option J) (st : Option J)
    (raw : String) : Option J :=
  match parse raw with
  | some v => some v
  | none => st

/-! ## Log list page filter state (`pages/LogListPage.tsx`) -/

/-- The filter state of `LogListPage` (`useState<LogFilters>`), with the
fields the page manipulates. -/
structure ListFilters where
  page : Nat
  page_size : Nat
  sort_by : Option String
  sort_order : Option String
  severity : Option String
  source : Option String
  search : Option String
deriving DecidableEq, Repr

/-- The initial filter state of `LogListPage`:
`{ page: 1, page_size: 50, sort_by: 'timestamp', sort_order: 'desc' }`. -/
def initFilters : ListFilters :=
  { page := 1, page_size := 50, sort_by := some "timestamp",
    sort_order := some "desc", severity := none, source := none, search := none }

/-- The filter keys `handleFilterChange` is invoked with on this page. -/
inductive FilterField where
  | search
  | severity
  | source
  | sortBy
  | sortOrder
deriving DecidableEq, Repr

/-- `{ ...prev, [key]: value }`: update one filter field. -/
def setField (f : ListFilters) : FilterField → Option String → ListFilters
  | .search, v => { f with search := v }
  | .severity, v => { f with severity := v }
  | .source, v => { f with source := v }
  | .sortBy, v => { f with sort_by := v }
  | .sortOrder, v => { f with sort_order := v }

/-- The state transitions of `LogListPage`'s filter state:
`handleFilterChange` (spread plus `page: 1`), `handlePageChange`
(`page: newPage + 1` from the zero-based UI page index) and
`handleRowsPerPageChange` (`page_size` update plus `page: 1`). -/
inductive ListPageAction where
  | filterChange (field : FilterField) (value : Option String)
  | pageChange (newPage : Nat)
  | rowsPerPageChange (rows : Nat)
deriving DecidableEq, Repr

/-- One state transition of the page's filter state. -/
def applyAction (f : ListFilters) : ListPageAction → ListFilters
  | .filterChange field v => { setField f field v with page := 1 }
  | .pageChange newPage => { f with page := newPage + 1 }
  | .rowsPerPageChange rows => { f with page_size := rows, page := 1 }

/-! ## Stream session snapshot diffing (backend, modelled from the spec) -/

/-- Modelled from the spec: a stream session's mutable state, holding the
last-emitted snapshot per view type (none right after connect); the backend
stream session manager is not part of the repository snapshot. -/
structure StreamSession (α : Type) where
  lastEmitted : Option α
deriving DecidableEq, Repr

/-- Modelled from the spec: one tick of a stream session.  The newly
computed view is compared by value to the last-emitted snapshot; the event
is emitted (second component `true`) only if it differs, and the snapshot
is updated on emission.  The first tick after connect (no prior snapshot)
always emits. -/
def tickOnce {α : Type} [DecidableEq α] (s : StreamSession α) (view : α) :
    StreamSession α × Bool :=
  if s.lastEmitted = some view then (s, false)
  else ({ lastEmitted := some view }, true)

/-- Run a session over a list of per-tick computed views, counting emitted
events. -/
def runTicks {α : Type} [DecidableEq α] (s : StreamSession α) :
    List α → StreamSession α × Nat
  | [] => (s, 0)
  | v :: vs =>
    let t := tickOnce s v
    let r := runTicks t.1 vs
    (r.1, (if t.2 then 1 else 0) + r.2)

/-- Number of events emitted by a freshly connected session over a list of
per-tick views. -/
def emitCount {α : Type} [DecidableEq α] (views : List α) : Nat :=
  (runTicks ({ lastEmitted := none } : StreamSession α) views).2

/-! ## FilterSpec compiler page-size handling (backend, modelled from the spec) -/

/-- Modelled from the spec: the FilterSpec compiler's page-size rule
(backend not in the repository snapshot).  Page size is 1..100 with
default 50; zero is rejected with `InvalidFilter`; a value above 100 is
clamped to 100 rather than rejected. -/
def compilePageSize : Option Nat → Except String Nat
  | none => .ok 50
  | some n => if n < 1 then .error "InvalidFilter" else .ok (min n 100)

/-- The page-shaped part of a list response: the effective page size is
echoed back to the caller. -/
structure ListResponse where
  page : Nat
  page_size : Nat
  total : Nat
  total_pages : Nat
deriving DecidableEq, Repr

/-- Modelled from the spec: a list request either fails validation or
returns a response echoing the effective (possibly clamped) page size,
with `total_pages = ceil(total / page_size)`. -/
def execList (page : Nat) (pageSizeParam : Option Nat) (total : Nat) :
    Except String ListResponse :=
  match compilePageSize pageSizeParam with
  | .error e => .error e
  | .ok ps =>
    .ok { page := page, page_size := ps, total := total,
          total_pages := (total + ps - 1) / ps }

/-! ## URL builders (`services/api.ts`) -/

/-- `const API_URL = import.meta.env.VITE_API_URL || '/api'` with the
documented default. -/
def apiURL : String := "/api"

/-- Upper-case hexadecimal digit for `n < 16`. -/
def hexChar (n : Nat) : Char :=
  if n < 10 then Char.ofNat (48 + n) else Char.ofNat (55 + n)

/-- UTF-8 byte sequence of a character (as `URLSearchParams` encodes
non-ASCII input byte by byte). -/
def utf8Bytes (c : Char) : List Nat :=
  let n := c.toNat
  if n < 128 then [n]
  else if n < 2048 then [192 + n / 64, 128 + n % 64]
  else if n < 65536 then [224 + n / 4096, 128 + (n / 64) % 64, 128 + n % 64]
  else [240 + n / 262144, 128 + (n / 4096) % 64, 128 + (n / 64) % 64, 128 + n % 64]

/-- Characters `URLSearchParams` leaves unescaped
(`application/x-www-form-urlencoded`). -/
def isFormUnreserved (c : Char) : Bool :=
  c.isAlphanum || c = '*' || c = '-' || c = '.' || c = '_'

/-- Form-encoding of one character: unreserved characters kept, space
becomes `+`, anything else percent-encoded per UTF-8 byte. -/
def encodeFormChar (c : Char) : String :=
  if isFormUnreserved c then String.singleton c
  else if c = ' ' then "+"
  else String.join ((utf8Bytes c).map fun b =>
    "%" ++ String.singleton (hexChar (b / 16)) ++ String.singleton (hexChar (b % 16)))

/-- Form-encoding of a string. -/
def encodeForm (s : String) : String :=
  String.join (s.toList.map encodeFormChar)

/-- `URLSearchParams.toString()`: the appended (key, value) pairs joined as
`k=v` with `&`, form-encoded. -/
def paramsToQuery (ps : List (String × String)) : String :=
  String.intercalate "&" (ps.map fun p => encodeForm p.1 ++ "=" ++ encodeForm p.2)

/-- `` base + (queryString ? '?' + queryString : '') `` from every sseAPI
builder. -/
def buildUrl (base : String) (ps : List (String × String)) : String :=
  let qs := paramsToQuery ps
  if qs = "" then base else base ++ "?" ++ qs

/-- JavaScript truthiness of an optional string parameter: defined and
non-empty. -/
def truthyStr : Option String → Bool
  | none => false
  | some s => if s = "" then false else true

/-- `if (filters.x) params.append('x', filters.x)` for a string-valued
field: appended exactly when truthy. -/
def optParamStr (k : String) : Option String → List (String × String)
  | none => []
  | some v => if v = "" then [] else [(k, v)]

/-- `if (filters.interval) params.append('interval',
filters.interval.toString())` for a number-valued field: appended exactly
when truthy (defined and non-zero). -/
def optParamNat (k : String) : Option Nat → List (String × String)
  | none => []
  | some n => if n = 0 then [] else [(k, Nat.repr n)]

/-- The query-parameter names appearing in a parameter list. -/
def keysOf (ps : List (String × String)) : List String := ps.map Prod.fst

/-- The filter argument of `sseAPI.getLogsCountUrl` and
`sseAPI.getAggregatedUrl` (`LogFilters` without paging/sort/search, plus
`interval`). -/
structure CountQuery where
  severity : Option String := none
  source : Option String := none
  start_date : Option String := none
  end_date : Option String := none
  interval : Option Nat := none
deriving DecidableEq, Repr

/-- The filter argument of `sseAPI.getTrendUrl` (`trend_interval` for the
bucket width and `update_interval` for the push cadence). -/
structure TrendStreamQuery where
  severity : Option String := none
  source : Option String := none
  start_date : Option String := none
  end_date : Option String := none
  trend_interval : Option String := none
  update_interval : Option Nat := none
deriving DecidableEq, Repr

/-- The filter argument of `sseAPI.getDistributionUrl` (no severity). -/
structure DistQuery where
  source : Option String := none
  start_date : Option String := none
  end_date : Option String := none
  interval : Option Nat := none
deriving DecidableEq, Repr

/-- Parameter list built by `sseAPI.getLogsCountUrl`. -/
def logsCountParams (f : CountQuery) : List (String × String) :=
  optParamStr "severity" f.severity ++ optParamStr "source" f.source ++
  optParamStr "start_date" f.start_date ++ optParamStr "end_date" f.end_date ++
  optParamNat "interval" f.interval

/-- `sseAPI.getLogsCountUrl`. -/
def getLogsCountUrl (f : CountQuery) : String :=
  buildUrl (apiURL ++ "/sse/logs/count") (logsCountParams f)

/-- Parameter list built by `sseAPI.getAggregatedUrl`. -/
def aggregatedParams (f : CountQuery) : List (String × String) :=
  optParamStr "severity" f.severity ++ optParamStr "source" f.source ++
  optParamStr "start_date" f.start_date ++ optParamStr "end_date" f.end_date ++
  optParamNat "interval" f.interval

/-- `sseAPI.getAggregatedUrl`. -/
def getAggregatedUrl (f : CountQuery) : String :=
  buildUrl (apiURL ++ "/sse/analytics/aggregated") (aggregatedParams f)

/-- Parameter list built by `sseAPI.getTrendUrl`: the bucket width is sent
as `trend_interval`, the push cadence as `update_interval`. -/
def trendUrlParams (f : TrendStreamQuery) : List (String × String) :=
  optParamStr "severity" f.severity ++ optParamStr "source" f.source ++
  optParamStr "start_date" f.start_date ++ optParamStr "end_date" f.end_date ++
  optParamStr "trend_interval" f.trend_interval ++
  optParamNat "update_interval" f.update_interval

/-- `sseAPI.getTrendUrl`. -/
def getTrendUrl (f : TrendStreamQuery) : String :=
  buildUrl (apiURL ++ "/sse/analytics/trend") (trendUrlParams f)

/-- Parameter list built by `sseAPI.getDistributionUrl`. -/
def distributionParams (f : DistQuery) : List (String × String) :=
  optParamStr "source" f.source ++ optParamStr "start_date" f.start_date ++
  optParamStr "end_date" f.end_date ++ optParamNat "interval" f.interval

/-- `sseAPI.getDistributionUrl`. -/
def getDistributionUrl (f : DistQuery) : String :=
  buildUrl (apiURL ++ "/sse/analytics/distribution") (distributionParams f)

/-- The filter argument of the one-shot `analyticsAPI.getTrend` call: the
bucket width travels in the `interval` member. -/
structure TrendQuery where
  severity : Option String := none
  source : Option String := none
  start_date : Option String := none
  end_date : Option String := none
  interval : Option String := none
deriving DecidableEq, Repr

/-- Axios `{ params: filters }` serialisation: every defined member becomes
a query parameter under its member name (undefined members are dropped). -/
def definedParam (k : String) : Option String → List (String × String)
  | none => []
  | some v => [(k, v)]

/-- Query parameters of the one-shot `analyticsAPI.getTrend` request. -/
def analyticsTrendParams (f : TrendQuery) : List (String × String) :=
  definedParam "severity" f.severity ++ definedParam "source" f.source ++
  definedParam "start_date" f.start_date ++ definedParam "end_date" f.end_date ++
  definedParam "interval" f.interval

/-- Boolean lexicographic (alphabetical) comparison of character lists,
used to state that the severity ordering is not alphabetical. -/
def lexLtChars : List Char → List Char → Bool
  | [], [] => false
  | [], _ :: _ => true
  | _ :: _, [] => false
  | a :: as, b :: bs => if a < b then true else if b < a then false else lexLtChars as bs

/-! ## Theorems -/

/-- C7: the severity type admits exactly the five labels DEBUG, INFO,
WARNING, ERROR, CRITICAL and no others; its declaration order is exactly
that sequence, which is strictly increasing in the sort rank and is not
alphabetical order (CRITICAL precedes ERROR alphabetically yet follows it
in rank). -/
theorem severity_closed_set_and_order :
    severityValues.map severityLabel = ["DEBUG", "INFO", "WARNING", "ERROR", "CRITICAL"] ∧
    (∀ s : Severity, s ∈ severityValues) ∧
    severityValues.Nodup ∧
    List.Sorted (fun a b => severityRank a < severityRank b) severityValues ∧
    ¬ List.Sorted
      (fun a b => lexLtChars (severityLabel a).toList (severityLabel b).toList = true)
      severityValues := by
  refine ⟨by decide, fun s => by cases s <;> decide, by decide, by decide, ?_⟩
  intro h
  have herr : lexLtChars (severityLabel .ERROR).toList (severityLabel .CRITICAL).toList = true := by
    simp only [severityValues, List.sorted_cons, List.mem_cons] at h
    exact h.2.2.2.1 Severity.CRITICAL (Or.inl rfl)
  revert herr
  decide

/-- C4: delivering the same logical snapshot message twice in a row through
the SSE hook's `onmessage` handler is idempotent on the stored data state:
the handler replaces the data with the parsed message, so a second delivery
of an identical message leaves the state equal to one delivery. -/
theorem handleMessage_idempotent {J : Type} (parse : String → Option J)
    (st : Option J) (raw : String) :
    handleMessage parse (handleMessage parse st raw) raw =
      handleMessage parse st raw := by
  unfold handleMessage
  cases h : parse raw <;> simp [h]

/-- C2: for every `DistributionData` items list, the distribution view's
(label, count) pairs are presented sorted by the canonical severity ranking
DEBUG < INFO < WARNING < ERROR < CRITICAL (the rank function realises that
ranking), and the displayed pairs are a permutation of the input, so there
is still one pair per severity present. -/
theorem sortBySeverity_canonical_order (items : List DistributionItem) :
    List.Sorted distLe (sortBySeverity items) ∧
    List.Perm (sortBySeverity items) items ∧
    (severityRankOfLabel "DEBUG" < severityRankOfLabel "INFO" ∧
      severityRankOfLabel "INFO" < severityRankOfLabel "WARNING" ∧
      severityRankOfLabel "WARNING" < severityRankOfLabel "ERROR" ∧
      severityRankOfLabel "ERROR" < severityRankOfLabel "CRITICAL") := by
  refine ⟨List.sorted_insertionSort distLe items, List.perm_insertionSort distLe items, ?_⟩
  decide

/-- A session whose snapshot already equals `v` emits nothing over any run
of ticks that keep computing `v`. -/
lemma runTicks_replicate_same {α : Type} [DecidableEq α] (v : α) (n : Nat) :
    runTicks ({ lastEmitted := some v } : StreamSession α) (List.replicate n v) =
      ({ lastEmitted := some v }, 0) := by
  induction n with
  | zero => rfl
  | succ n ih => simp [List.replicate_succ, runTicks, tickOnce, ih]

/-- Splitting a run of ticks at a list concatenation. -/
lemma runTicks_append {α : Type} [DecidableEq α] (s : StreamSession α)
    (l1 l2 : List α) :
    runTicks s (l1 ++ l2) =
      ((runTicks (runTicks s l1).1 l2).1,
        (runTicks s l1).2 + (runTicks (runTicks s l1).1 l2).2) := by
  induction l1 generalizing s with
  | nil => simp [runTicks]
  | cons v vs ih => simp [runTicks, ih, Nat.add_assoc]

/-- C1: the first tick after connect always emits; a session whose computed
view never changes emits exactly one event (zero after the first); and a
single qualifying change of the view causes exactly one further event on
the next tick (two in total), however many unchanged ticks surround it. -/
theorem stream_session_diffing {α : Type} [DecidableEq α] (v w : α)
    (hvw : v ≠ w) (n k : Nat) :
    (tickOnce ({ lastEmitted := none } : StreamSession α) v).2 = true ∧
    emitCount (v :: List.replicate n v) = 1 ∧
    emitCount ((v :: List.replicate n v) ++ (w :: List.replicate k w)) = 2 := by
  have h1 : runTicks ({ lastEmitted := none } : StreamSession α) (v :: List.replicate n v) =
      ({ lastEmitted := some v }, 1) := by
    simp [runTicks, tickOnce, runTicks_replicate_same]
  have h2 : runTicks ({ lastEmitted := some v } : StreamSession α) (w :: List.replicate k w) =
      ({ lastEmitted := some w }, 1) := by
    simp [runTicks, tickOnce, hvw, runTicks_replicate_same]
  refine ⟨by simp [tickOnce], by simp [emitCount, h1], ?_⟩
  unfold emitCount
  rw [runTicks_append, h1]
  simp [h2]

/-- Witness for C1 at a concrete instance: views of type `Nat`, an idle
stretch of three ticks and a change followed by two idle ticks. -/
theorem stream_session_diffing_witness :
    (0 : Nat) ≠ 1 ∧
    ((tickOnce ({ lastEmitted := none } : StreamSession Nat) 0).2 = true ∧
      emitCount ((0 : Nat) :: List.replicate 3 0) = 1 ∧
      emitCount (((0 : Nat) :: List.replicate 3 0) ++ (1 :: List.replicate 2 1)) = 2) :=
  ⟨by decide, stream_session_diffing 0 1 (by decide) 3 2⟩

/-- C8: every reachable filter state of the log list page has `page ≥ 1`:
the initial state sets page 1, the page-change handler maps the zero-based
UI index to `index + 1`, and every filter or page-size change resets the
page to 1, so the invariant holds after any sequence of transitions. -/
theorem list_page_number_ge_one (acts : List ListPageAction) :
    1 ≤ (acts.foldl applyAction initFilters).page := by
  suffices h : ∀ f : ListFilters, 1 ≤ f.page → 1 ≤ (acts.foldl applyAction f).page by
    exact h initFilters (by decide)
  induction acts with
  | nil => intro f hf; exact hf
  | cons a as ih =>
    intro f hf
    apply ih
    cases a with
    | filterChange field v => cases field <;> simp [applyAction, setField]
    | pageChange p => simp [applyAction]
    | rowsPerPageChange r => simp [applyAction]

/-- C6: a list request with `page_size` above 100 is not rejected; the
effective page size is 100 and that clamped value is echoed back in the
response. -/
theorem page_size_clamped (n : Nat) (h : 100 < n) (page total : Nat) :
    compilePageSize (some n) = Except.ok 100 ∧
    ∃ r : ListResponse, execList page (some n) total = Except.ok r ∧
      r.page_size = 100 := by
  have h1 : compilePageSize (some n) = Except.ok 100 := by
    have hn : ¬ n < 1 := by omega
    have hm : min n 100 = 100 := Nat.min_eq_right (by omega)
    simp [compilePageSize, hn, hm]
  have h2 : execList page (some n) total =
      Except.ok { page := page, page_size := 100, total := total,
                  total_pages := (total + 100 - 1) / 100 } := by
    simp [execList, h1]
  exact ⟨h1, ⟨_, h2, rfl⟩⟩

/-- Witness for C6 at `page_size = 150`. -/
theorem page_size_clamped_witness :
    100 < 150 ∧
    (compilePageSize (some 150) = Except.ok 100 ∧
      ∃ r : ListResponse, execList 1 (some 150) 0 = Except.ok r ∧
        r.page_size = 100) :=
  ⟨by decide, page_size_clamped 150 (by decide) 1 0⟩

/-- Keys distribute over parameter-list concatenation. -/
lemma keysOf_append (ps qs : List (String × String)) :
    keysOf (ps ++ qs) = keysOf ps ++ keysOf qs := by
  simp [keysOf]

/-- A conditional string parameter contributes its key exactly when the
value is truthy. -/
lemma mem_keysOf_optParamStr (k q : String) (v : Option String) :
    k ∈ keysOf (optParamStr q v) ↔ (k = q ∧ truthyStr v = true) := by
  cases v with
  | none => simp [optParamStr, truthyStr, keysOf]
  | some s => by_cases h : s = "" <;> simp [optParamStr, truthyStr, h, keysOf]

/-- A conditional numeric parameter contributes its key exactly when the
value is truthy (defined and non-zero). -/
lemma mem_keysOf_optParamNat (k q : String) (v : Option Nat) :
    k ∈ keysOf (optParamNat q v) ↔ (k = q ∧ v.getD 0 ≠ 0) := by
  cases v with
  | none => simp [optParamNat, keysOf]
  | some n => by_cases h : n = 0 <;> simp [optParamNat, h, keysOf]

/-- An axios parameter contributes its key exactly when the member is
defined. -/
lemma mem_keysOf_definedParam (k q : String) (v : Option String) :
    k ∈ keysOf (definedParam q v) ↔ (k = q ∧ v.isSome = true) := by
  cases v <;> simp [definedParam, keysOf]

/-- C9: for every sseAPI URL builder and every filter object, the URL
carries a query parameter for a filter field exactly when that field's
value is truthy (set and non-empty), and when no parameter is appended the
returned URL contains no question-mark separator. -/
theorem sse_url_builders_truthy_params (f1 f2 : CountQuery)
    (f3 : TrendStreamQuery) (f4 : DistQuery) :
    (("severity" ∈ keysOf (logsCountParams f1) ↔ truthyStr f1.severity = true) ∧
      ("source" ∈ keysOf (logsCountParams f1) ↔ truthyStr f1.source = true) ∧
      ("start_date" ∈ keysOf (logsCountParams f1) ↔ truthyStr f1.start_date = true) ∧
      ("end_date" ∈ keysOf (logsCountParams f1) ↔ truthyStr f1.end_date = true) ∧
      (logsCountParams f1 = [] → '?' ∉ (getLogsCountUrl f1).toList)) ∧
    (("severity" ∈ keysOf (aggregatedParams f2) ↔ truthyStr f2.severity = true) ∧
      ("source" ∈ keysOf (aggregatedParams f2) ↔ truthyStr f2.source = true) ∧
      ("start_date" ∈ keysOf (aggregatedParams f2) ↔ truthyStr f2.start_date = true) ∧
      ("end_date" ∈ keysOf (aggregatedParams f2) ↔ truthyStr f2.end_date = true) ∧
      (aggregatedParams f2 = [] → '?' ∉ (getAggregatedUrl f2).toList)) ∧
    (("severity" ∈ keysOf (trendUrlParams f3) ↔ truthyStr f3.severity = true) ∧
      ("source" ∈ keysOf (trendUrlParams f3) ↔ truthyStr f3.source = true) ∧
      ("start_date" ∈ keysOf (trendUrlParams f3) ↔ truthyStr f3.start_date = true) ∧
      ("end_date" ∈ keysOf (trendUrlParams f3) ↔ truthyStr f3.end_date = true) ∧
      (trendUrlParams f3 = [] → '?' ∉ (getTrendUrl f3).toList)) ∧
    (("source" ∈ keysOf (distributionParams f4) ↔ truthyStr f4.source = true) ∧
      ("start_date" ∈ keysOf (distributionParams f4) ↔ truthyStr f4.start_date = true) ∧
      ("end_date" ∈ keysOf (distributionParams f4) ↔ truthyStr f4.end_date = true) ∧
      (distributionParams f4 = [] → '?' ∉ (getDistributionUrl f4).toList)) := by
  refine ⟨⟨?_, ?_, ?_, ?_, ?_⟩, ⟨?_, ?_, ?_, ?_, ?_⟩, ⟨?_, ?_, ?_, ?_, ?_⟩,
    ⟨?_, ?_, ?_, ?_⟩⟩ <;>
    first
      | (intro hp
         first
           | (simp [getLogsCountUrl, hp]; decide)
           | (simp [getAggregatedUrl, hp]; decide)
           | (simp [getTrendUrl, hp]; decide)
           | (simp [getDistributionUrl, hp]; decide))
      | simp [logsCountParams, aggregatedParams, trendUrlParams, distributionParams,
          keysOf_append, List.mem_append, mem_keysOf_optParamStr, mem_keysOf_optParamNat]

/-- Witness for C9: the four builders at empty filters produce URLs without
a question mark, and a set severity is carried by the logs-count URL. -/
theorem sse_url_builders_truthy_params_witness :
    '?' ∉ (getLogsCountUrl {}).toList ∧
    '?' ∉ (getAggregatedUrl {}).toList ∧
    '?' ∉ (getTrendUrl {}).toList ∧
    '?' ∉ (getDistributionUrl {}).toList ∧
    ("severity" ∈ keysOf (logsCountParams { severity := some "ERROR" }) ↔
      truthyStr (some "ERROR") = true) := by
  have h := sse_url_builders_truthy_params {} {} {} {}
  have h2 := sse_url_builders_truthy_params { severity := some "ERROR" } {} {} {}
  exact ⟨h.1.2.2.2.2 (by decide), h.2.1.2.2.2.2 (by decide),
    h.2.2.1.2.2.2.2 (by decide), h.2.2.2.2.2.2 (by decide), h2.1.1⟩

/-- C5 counterexample: at the concrete trend requests built with bucket
width `hour`, the bucket-width parameter is named `trend_interval`
(streaming) and `interval` (one-shot); no parameter named `granularity`
appears, so the claim that every trend request uses a `granularity`
parameter is false. -/
theorem trend_granularity_param_counterexample :
    ("trend_interval", "hour") ∈ trendUrlParams { trend_interval := some "hour" } ∧
    ("interval", "hour") ∈ analyticsTrendParams { interval := some "hour" } ∧
    "granularity" ∉ keysOf (trendUrlParams { trend_interval := some "hour" }) ∧
    "granularity" ∉ keysOf (analyticsTrendParams { interval := some "hour" }) := by
  decide

/-- C5 (amended): every trend request identifies the bucket width by a
request parameter named `interval` (one-shot analytics call) or
`trend_interval` (streaming trend URL) with value in {hour, day}; no trend
request carries a parameter named `granularity`. -/
theorem trend_bucket_width_param_names (g : String)
    (hg : g = "hour" ∨ g = "day") (f1 : TrendQuery) (f2 : TrendStreamQuery) :
    ("interval", g) ∈ analyticsTrendParams { f1 with interval := some g } ∧
    ("trend_interval", g) ∈ trendUrlParams { f2 with trend_interval := some g } ∧
    "granularity" ∉ keysOf (analyticsTrendParams f1) ∧
    "granularity" ∉ keysOf (trendUrlParams f2) := by
  have hg0 : ¬ g = "" := by rcases hg with h | h <;> simp [h]
  refine ⟨?_, ?_, ?_, ?_⟩
  · simp [analyticsTrendParams, definedParam, List.mem_append]
  · simp [trendUrlParams, optParamStr, hg0, List.mem_append]
  · simp [analyticsTrendParams, keysOf_append, List.mem_append, mem_keysOf_definedParam]
  · simp [trendUrlParams, keysOf_append, List.mem_append, mem_keysOf_optParamStr,
      mem_keysOf_optParamNat]

/-- Witness for the amended C5 at bucket width `hour` and empty filters. -/
theorem trend_bucket_width_param_names_witness :
    (("hour" : String) = "hour" ∨ ("hour" : String) = "day") ∧
    (("interval", "hour") ∈ analyticsTrendParams { interval := some "hour" } ∧
      ("trend_interval", "hour") ∈ trendUrlParams { trend_interval := some "hour" } ∧
      "granularity" ∉ keysOf (analyticsTrendParams {}) ∧
      "granularity" ∉ keysOf (trendUrlParams {})) :=
  ⟨Or.inl rfl, trend_bucket_width_param_names "hour" (Or.inl rfl) {} {}⟩

/-! ## SSE hook lifecycle (`hooks/useSSE.ts`, connect / onerror / cleanup)

One effect instance of `useSSE` is modelled as a state machine.  The state
tracks the `eventSourceRef` (`sourceRef`, with `sourceOpen` recording
whether the current source is open), the environment's scheduled,
uncancelled timeouts (`activeTimers`, pairs of timer id and delay), the
`reconnectTimeoutRef` (`timerRef`) and a fresh-id counter. -/

/-- `SSEOptions` from `useSSE.ts` (callbacks omitted); `reconnectInterval`
is optional with default 3000 applied at destructuring. -/
structure SSEOptions where
  url : String
  enabled : Bool := true
  reconnectInterval : Option Nat := none
deriving DecidableEq, Repr

/-- `const { reconnectInterval = 3000 } = options`. -/
def resolvedReconnectInterval (o : SSEOptions) : Nat :=
  o.reconnectInterval.getD 3000

/-- State of one `useSSE` effect instance together with its environment's
pending timeouts. -/
structure HookState where
  sourceRef : Option Nat
  sourceOpen : Bool
  activeTimers : List (Nat × Nat)
  timerRef : Option Nat
  nextId : Nat
deriving DecidableEq, Repr

/-- `clearTimeout(reconnectTimeoutRef.current)`: cancel the referenced
timeout, if any, among the environment's pending ones. -/
def clearRefTimer (timers : List (Nat × Nat)) : Option Nat → List (Nat × Nat)
  | none => timers
  | some i => timers.filter fun t => t.1 != i

/-- Invariant maintained by the hook: at most one timeout is pending and
any pending timeout is the one held in `reconnectTimeoutRef`. -/
def TimerInv (s : HookState) : Prop :=
  s.activeTimers.length ≤ 1 ∧ ∀ t ∈ s.activeTimers, s.timerRef = some t.1

instance (s : HookState) : Decidable (TimerInv s) := by
  unfold TimerInv
  infer_instance

/-- `connect()`: close any existing source, create a new `EventSource` and
store it in the ref. -/
def connect (s : HookState) : HookState :=
  { sourceRef := some s.nextId, sourceOpen := true,
    activeTimers := s.activeTimers, timerRef := s.timerRef,
    nextId := s.nextId + 1 }

/-- `eventSource.onerror`: close the current source, clear any pending
reconnect timeout, and schedule one reconnect after `reconnectInterval`. -/
def onError (o : SSEOptions) (s : HookState) : HookState :=
  { sourceRef := s.sourceRef, sourceOpen := false,
    activeTimers :=
      (s.nextId, resolvedReconnectInterval o) :: clearRefTimer s.activeTimers s.timerRef,
    timerRef := some s.nextId, nextId := s.nextId + 1 }

/-- The effect cleanup function: clear any pending reconnect timeout, close
the current source and null the ref. -/
def cleanup (s : HookState) : HookState :=
  { sourceRef := none, sourceOpen := false,
    activeTimers := clearRefTimer s.activeTimers s.timerRef,
    timerRef := s.timerRef, nextId := s.nextId }

/-- Environment events that can reach one effect instance: a scheduled
timeout firing, or a transport error on the open source. -/
inductive HookEvent where
  | timerFire (i : Nat)
  | sourceError
deriving DecidableEq, Repr

/-- One environment step.  A timeout only fires if it is still pending
(cancelled timeouts never fire); its callback runs `connect()` — counted as
a connection attempt (second component).  A transport error only fires on
an open source and runs the `onerror` handler. -/
def stepHook (o : SSEOptions) (s : HookState) : HookEvent → HookState × Bool
  | .timerFire i =>
    if s.activeTimers.any (fun t => t.1 == i) then
      (connect { s with activeTimers := s.activeTimers.filter fun t => t.1 != i }, true)
    else (s, false)
  | .sourceError =>
    if s.sourceOpen then (onError o s, false) else (s, false)

/-- Run a sequence of environment events, counting connection attempts. -/
def runHook (o : SSEOptions) (s : HookState) : List HookEvent → HookState × Nat
  | [] => (s, 0)
  | e :: es =>
    let t := stepHook o s e
    let r := runHook o t.1 es
    (r.1, (if t.2 then 1 else 0) + r.2)

/-- Under the hook invariant, clearing the referenced timeout cancels every
pending timeout. -/
lemma clearRefTimer_of_inv (s : HookState) (h : TimerInv s) :
    clearRefTimer s.activeTimers s.timerRef = [] := by
  obtain ⟨hlen, hall⟩ := h
  cases hts : s.activeTimers with
  | nil => cases s.timerRef <;> simp [clearRefTimer]
  | cons t rest =>
    have hrest : rest = [] := by
      rw [hts] at hlen
      simp only [List.length_cons] at hlen
      exact List.eq_nil_of_length_eq_zero (by omega)
    have htr : s.timerRef = some t.1 := by
      refine hall t ?_
      rw [hts]
      exact List.mem_cons_self t rest
    rw [hrest, htr]
    simp [clearRefTimer]

/-- A state with no open source and no pending timeout is inert: every
event is a no-op and no connection attempt happens. -/
lemma stepHook_inert (o : SSEOptions) (s : HookState)
    (ht : s.activeTimers = []) (hs : s.sourceOpen = false) (e : HookEvent) :
    stepHook o s e = (s, false) := by
  cases e with
  | timerFire i => simp [stepHook, ht]
  | sourceError => simp [stepHook, hs]

/-- An inert state stays inert over any event sequence, with zero
connection attempts. -/
lemma runHook_inert (o : SSEOptions) (s : HookState)
    (ht : s.activeTimers = []) (hs : s.sourceOpen = false)
    (evs : List HookEvent) : runHook o s evs = (s, 0) := by
  induction evs with
  | nil => rfl
  | cons e es ih => simp [runHook, stepHook_inert o s ht hs e, ih]

/-- C3: on a transport error while the hook is enabled (the handler is only
installed then), the current EventSource is closed and exactly one
reconnect attempt is scheduled after the fixed `reconnectInterval` delay
(3000 ms when the option is absent), replacing any previously pending
reconnect. -/
theorem sse_onerror_single_reconnect (o : SSEOptions) (s : HookState)
    (h : TimerInv s) :
    (onError o s).sourceOpen = false ∧
    (onError o s).activeTimers = [(s.nextId, resolvedReconnectInterval o)] ∧
    (o.reconnectInterval = none → resolvedReconnectInterval o = 3000) := by
  refine ⟨rfl, ?_, ?_⟩
  · simp [onError, clearRefTimer_of_inv s h]
  · intro hnone
    simp [resolvedReconnectInterval, hnone]

/-- A hook state with an open source and one pending reconnect, used to
instantiate the lifecycle theorems. -/
def sampleHookState : HookState :=
  { sourceRef := some 0, sourceOpen := true, activeTimers := [(1, 500)],
    timerRef := some 1, nextId := 2 }

/-- Concrete options for the lifecycle witnesses. -/
def sampleOptions : SSEOptions := { url := "/api/sse/logs/count" }

/-- Witness for C3 at a concrete state with a stale pending reconnect: the
error handler leaves the source closed and exactly the new 3000 ms
reconnect pending. -/
theorem sse_onerror_single_reconnect_witness :
    TimerInv sampleHookState ∧
    (onError sampleOptions sampleHookState).sourceOpen = false ∧
    (onError sampleOptions sampleHookState).activeTimers = [(2, 3000)] :=
  ⟨by decide,
    (sse_onerror_single_reconnect sampleOptions sampleHookState (by decide)).1,
    (sse_onerror_single_reconnect sampleOptions sampleHookState (by decide)).2.1⟩

/-- C10: once the effect cleanup has run, the EventSource is closed and the
ref nulled, every pending reconnect timeout is cancelled, and no sequence
of later environment events produces a connection attempt from this effect
instance. -/
theorem sse_cleanup_no_further_connect (o : SSEOptions) (s : HookState)
    (h : TimerInv s) (evs : List HookEvent) :
    (cleanup s).sourceRef = none ∧
    (cleanup s).sourceOpen = false ∧
    (cleanup s).activeTimers = [] ∧
    (runHook o (cleanup s) evs).2 = 0 := by
  have htimers : (cleanup s).activeTimers = [] := by
    simp [cleanup, clearRefTimer_of_inv s h]
  refine ⟨rfl, rfl, htimers, ?_⟩
  rw [runHook_inert o (cleanup s) htimers rfl evs]

/-- Witness for C10: after cleanup of the concrete state, a stale timer
fire, a source error and an unknown timer fire cause no connection
attempt. -/
theorem sse_cleanup_no_further_connect_witness :
    TimerInv sampleHookState ∧
    ((cleanup sampleHookState).sourceRef = none ∧
      (cleanup sampleHookState).sourceOpen = false ∧
      (cleanup sampleHookState).activeTimers = [] ∧
      (runHook sampleOptions (cleanup sampleHookState)
        [HookEvent.timerFire 1, HookEvent.sourceError, HookEvent.timerFire 7]).2 = 0) :=
  ⟨by decide,
    sse_cleanup_no_further_connect sampleOptions sampleHookState (by decide)
      [HookEvent.timerFire 1, HookEvent.sourceError, HookEvent.timerFire 7]⟩

end LogsDashboard
